import Mathlib

/-!
Verification of the Gmail MCP gateway (`gmail_mcp.py`) against its
natural-language specification.

The Python source is shallowly embedded: Python `str` is modelled as Lean
`String`, with the Python string methods used by the source re-implemented
over `String.data` (`pyLower` for `str.lower`, `pyStartsWith` for
`str.startswith`, `pySlice` for `s[:n]`); Python `dict` as used by the
source (insert-overwrites, later insertion wins) is modelled as an
association list with most-recent-first lookup; raisable code is modelled
in `Except PyExc`; the library decoders `base64.urlsafe_b64decode` and
`bytes.decode("utf-8")` are modelled concretely (the base64 model was
differential-tested against CPython on the domain of alphabet characters
with trailing padding, which is what the remote API and the theorems below
exercise).
-/

namespace GmailMcp

/-- Model of Python `str.lower` (exact on ASCII data, which is all the
source compares: header names, label names, the `re:` test). -/
def pyLower (s : String) : String := ⟨s.data.map Char.toLower⟩

/-- Model of Python `str.startswith`. -/
def pyStartsWith (s p : String) : Bool := List.isPrefixOf p.data s.data

/-- Model of the Python slice `s[:n]`. -/
def pySlice (s : String) (n : Nat) : String := ⟨s.data.take n⟩

/-- Value of a standard-alphabet base64 character, `none` for any other
character. -/
def b64Val (c : Char) : Option Nat :=
  if 65 ≤ c.toNat ∧ c.toNat ≤ 90 then some (c.toNat - 65)
  else if 97 ≤ c.toNat ∧ c.toNat ≤ 122 then some (c.toNat - 97 + 26)
  else if 48 ≤ c.toNat ∧ c.toNat ≤ 57 then some (c.toNat - 48 + 52)
  else if c = '+' then some 62
  else if c = '/' then some 63
  else none

/-- The urlsafe alphabet translation performed by `base64.urlsafe_b64decode`
before standard decoding. -/
def urlsafeTranslate (c : Char) : Char :=
  if c = '-' then '+' else if c = '_' then '/' else c

/-- Turn a run of 6-bit base64 values into bytes: full quads give three
bytes, a trailing pair gives one byte, a trailing triple gives two. -/
def b64Quads : List Nat → List Nat
  | a :: b :: c :: d :: rest =>
      (a * 4 + b / 16) :: ((b % 16) * 16 + c / 4) :: ((c % 4) * 64 + d) :: b64Quads rest
  | [a, b] => [a * 4 + b / 16]
  | [a, b, c] => [a * 4 + b / 16, (b % 16) * 16 + c / 4]
  | _ => []

/-- Model of `base64.urlsafe_b64decode` (CPython non-strict mode): translate
`-_` to `+/`, ignore characters outside the alphabet, read data characters
up to the first `=`, then require the padding to complete the final quad;
on violation the library raises `binascii.Error`, modelled as `.error` with
the library's message. -/
def urlsafe_b64decode (s : String) : Except String (List Nat) :=
  let kept := (s.data.map urlsafeTranslate).filter (fun c => (b64Val c).isSome || c = '=')
  let body := kept.takeWhile (fun c => c ≠ '=')
  let pads := ((kept.drop body.length).takeWhile (fun c => c = '=')).length
  if body.length % 4 = 1 then
    .error "Invalid base64-encoded string: number of data characters cannot be 1 more than a multiple of 4"
  else if body.length % 4 = 2 ∧ pads < 2 then .error "Incorrect padding"
  else if body.length % 4 = 3 ∧ pads = 0 then .error "Incorrect padding"
  else .ok (b64Quads (body.filterMap b64Val))

/-- Strict UTF-8 decoding of a byte list, the model of
`bytes.decode("utf-8")`: rejects stray continuation bytes, overlong forms,
surrogates and values above U+10FFFF, exactly the inputs on which Python
raises `UnicodeDecodeError`. -/
def utf8Decode : List Nat → Option (List Char)
  | [] => some []
  | b :: rest =>
    if b < 0x80 then (utf8Decode rest).map (Char.ofNat b :: ·)
    else if b < 0xC2 then none
    else if b < 0xE0 then
      match rest with
      | b2 :: rest2 =>
        if 0x80 ≤ b2 ∧ b2 < 0xC0 then
          (utf8Decode rest2).map (Char.ofNat ((b - 0xC0) * 64 + (b2 - 0x80)) :: ·)
        else none
      | [] => none
    else if b < 0xF0 then
      match rest with
      | b2 :: b3 :: rest2 =>
        if (if b = 0xE0 then 0xA0 else 0x80) ≤ b2 ∧ b2 ≤ (if b = 0xED then 0x9F else 0xBF)
            ∧ 0x80 ≤ b3 ∧ b3 < 0xC0 then
          (utf8Decode rest2).map
            (Char.ofNat ((b - 0xE0) * 4096 + (b2 - 0x80) * 64 + (b3 - 0x80)) :: ·)
        else none
      | _ => none
    else if b < 0xF5 then
      match rest with
      | b2 :: b3 :: b4 :: rest2 =>
        if (if b = 0xF0 then 0x90 else 0x80) ≤ b2 ∧ b2 ≤ (if b = 0xF4 then 0x8F else 0xBF)
            ∧ 0x80 ≤ b3 ∧ b3 < 0xC0 ∧ 0x80 ≤ b4 ∧ b4 < 0xC0 then
          (utf8Decode rest2).map
            (Char.ofNat ((b - 0xF0) * 262144 + (b2 - 0x80) * 4096 + (b3 - 0x80) * 64 + (b4 - 0x80)) :: ·)
        else none
      | _ => none
    else none

/-- Exceptions that can reach a handler boundary in `gmail_mcp.py`:
`HttpError` from the remote API (with a status and, for 400s, optional
`error_details`), `FileNotFoundError` from `get_gmail_service`,
`binascii.Error` (whose Python type name is just `Error`) and
`UnicodeDecodeError` from body decoding, and any other exception with its
type name and message. -/
inductive PyExc where
  | httpError (status : Nat) (errorDetails : Option String)
  | fileNotFoundError (msg : String)
  | binasciiError (msg : String)
  | unicodeDecodeError (msg : String)
  | other (typeName : String) (msg : String)
deriving DecidableEq

/-- Python `type(e).__name__` for the modelled exceptions
(`binascii.Error.__name__` is `"Error"`). -/
def pyTypeName : PyExc → String
  | .httpError _ _ => "HttpError"
  | .fileNotFoundError _ => "FileNotFoundError"
  | .binasciiError _ => "Error"
  | .unicodeDecodeError _ => "UnicodeDecodeError"
  | .other n _ => n

/-- Python `str(e)` for the modelled exceptions; for `HttpError` the source
never consumes it, so it is modelled as empty. -/
def pyExcMsg : PyExc → String
  | .httpError _ _ => ""
  | .fileNotFoundError m => m
  | .binasciiError m => m
  | .unicodeDecodeError m => m
  | .other _ m => m

/-- Embedding of `_handle_api_error` (gmail_mcp.py lines 70-85). -/
def handle_api_error : PyExc → String
  | .httpError status d =>
    if status = 404 then "Error: Resource not found. Please check the ID is correct."
    else if status = 403 then "Error: Permission denied. Check your Gmail API permissions."
    else if status = 429 then "Error: Rate limit exceeded. Please wait before making more requests."
    else if status = 400 then "Error: Invalid request. " ++ (d.getD "Check your parameters.")
    else "Error: Gmail API error (status " ++ toString status ++ ")"
  | .fileNotFoundError msg => msg
  | e => "Error: " ++ pyTypeName e ++ ": " ++ pyExcMsg e

/-- The `try ... except Exception as e: return _handle_api_error(e)` boundary
every tool handler wraps its body in: a successful body yields its string, a
raised exception yields the classifier's string. -/
def run_handler : Except PyExc String → String
  | .ok s => s
  | .error e => handle_api_error e

/-- One Gmail message header, a name/value pair. -/
structure Header where
  name : String
  value : String
deriving DecidableEq

/-- Embedding of `_get_header_value` (gmail_mcp.py lines 116-121): scan the
header list in order and return the value of the first case-insensitive
name match, or the empty string. -/
def get_header_value : List Header → String → String
  | [], _ => ""
  | h :: hs, n => if pyLower h.name = pyLower n then h.value else get_header_value hs n

/-- The `body` field of a Gmail API payload part: optionally carries
base64url `data`. -/
structure MsgBody where
  data : Option String
deriving DecidableEq

/-- One part of a multipart Gmail API payload. -/
structure MsgPart where
  mimeType : String
  body : MsgBody
deriving DecidableEq

/-- A Gmail API message payload: its headers, optionally nested parts, and
an optional direct body. -/
structure MsgPayload where
  headers : List Header
  parts : Option (List MsgPart)
  body : Option MsgBody
deriving DecidableEq

/-- Decoding of one base64url data string followed by UTF-8 decoding, the
composition `base64.urlsafe_b64decode(data).decode('utf-8')` used by
`_decode_message_body`; either stage may raise. -/
def decode_data (d : String) : Except PyExc String :=
  match urlsafe_b64decode d with
  | .error m => .error (.binasciiError m)
  | .ok bytes =>
    match utf8Decode bytes with
    | none => .error (.unicodeDecodeError "invalid continuation byte")
    | some cs => .ok (String.mk cs)

/-- The part-scanning loop of `_decode_message_body` (lines 101-109): a
`text/plain` part with data decodes and breaks; a `text/html` part decodes
only while the accumulated body is still empty and the loop continues. -/
def decode_parts : List MsgPart → String → Except PyExc String
  | [], acc => .ok acc
  | part :: rest, acc =>
    if part.mimeType = "text/plain" then
      match part.body.data with
      | some d => decode_data d
      | none => decode_parts rest acc
    else if part.mimeType = "text/html" ∧ acc = "" then
      match part.body.data with
      | some d =>
        match decode_data d with
        | .error e => .error e
        | .ok b => decode_parts rest b
      | none => decode_parts rest acc
    else decode_parts rest acc

/-- Embedding of `_decode_message_body` (gmail_mcp.py lines 97-113). -/
def decode_message_body (p : MsgPayload) : Except PyExc String :=
  match p.parts with
  | some parts => decode_parts parts ""
  | none =>
    match p.body with
    | some b =>
      match b.data with
      | some d => decode_data d
      | none => .ok ""
    | none => .ok ""

/-- A Gmail label as returned by the remote `labels().list` call: opaque
identifier, display name, and type (`"system"` or `"user"`). -/
structure Label where
  id : String
  name : String
  type : String
deriving DecidableEq

/-- Python-dict lookup for the association-list dict model: the most recent
insertion (front of the list) wins. -/
def dict_lookup (m : List (String × String)) (k : String) : Option String :=
  (m.find? (fun p => p.1 == k)).map Prod.snd

/-- Embedding of the label map of `modify_labels` (lines 691-692): a dict
comprehension keyed by display name, then `update`d with entries keyed by
identifier; each insertion is modelled by prepending, so later insertions
and the `update` override earlier entries under `dict_lookup`. -/
def label_map (labels : List Label) : List (String × String) :=
  labels.foldl (fun m l => (l.id, l.id) :: m)
    (labels.foldl (fun m l => (l.name, l.id) :: m) [])

/-- Python truthiness of an `Optional[List[str]]` field: `None` and the
empty list are falsy. -/
def py_truthy : Option (List String) → Bool
  | none => false
  | some [] => false
  | some (_ :: _) => true

/-- The list carried by an `Optional[List[str]]` field, empty for `None`. -/
def py_list : Option (List String) → List String
  | none => []
  | some l => l

/-- The not-found error string of `modify_labels` (lines 701 and 709). -/
def label_not_found_error (lbl : String) : String :=
  "Error: Label '" ++ lbl ++ "' not found. Use gmail_list_labels to see available labels."

/-- The resolution loops of `modify_labels` (lines 695-709): map each listed
label through the label map in order, returning on the first label that is
not a key. -/
def resolve_labels (m : List (String × String)) : List String → Except String (List String)
  | [] => .ok []
  | lbl :: rest =>
    match dict_lookup m lbl with
    | some lid => (resolve_labels m rest).map (fun ids => lid :: ids)
    | none => .error lbl

/-- One remote `messages().modify` call issued by the mutation loop of
`modify_labels`, with the request body's optional label-id lists. -/
structure ModifyCall where
  messageId : String
  addLabelIds : Option (List String)
  removeLabelIds : Option (List String)
deriving DecidableEq

/-- Embedding of `modify_labels` (gmail_mcp.py lines 670-738), returning the
list of remote modify calls issued together with the response string; the
remote calls themselves are modelled as succeeding, since every claim about
this handler concerns the paths that return before the mutation loop. -/
def modify_labels (labels : List Label) (message_ids : List String)
    (add_labels remove_labels : Option (List String)) : List ModifyCall × String :=
  let m := label_map labels
  match (if py_truthy add_labels then resolve_labels m (py_list add_labels) else .ok []) with
  | .error lbl => ([], label_not_found_error lbl)
  | .ok add_ids =>
    match (if py_truthy remove_labels then resolve_labels m (py_list remove_labels) else .ok []) with
    | .error lbl => ([], label_not_found_error lbl)
    | .ok remove_ids =>
      if add_ids = [] ∧ remove_ids = [] then
        ([], "Error: No labels to add or remove. Specify at least one label operation.")
      else
        (message_ids.map (fun mid =>
          { messageId := mid
            addLabelIds := if add_ids = [] then none else some add_ids
            removeLabelIds := if remove_ids = [] then none else some remove_ids }),
         "✓ Successfully modified " ++ toString message_ids.length ++ " message(s)\n\n"
           ++ (if add_ids = [] then "" else
                "**Added labels:** " ++ String.intercalate ", " (py_list add_labels) ++ "\n")
           ++ (if remove_ids = [] then "" else
                "**Removed labels:** " ++ String.intercalate ", " (py_list remove_labels) ++ "\n"))

/-- The request body of a remote `labels().create` call (lines 934-938). -/
structure CreateCall where
  name : String
  labelListVisibility : String
  messageListVisibility : String
deriving DecidableEq

/-- Embedding of `create_label` (gmail_mcp.py lines 909-952): scan the
existing labels for a case-insensitive name match and fail with a duplicate
error before creating; otherwise issue the remote create call, whose
response (modelled by `remote_create`) supplies the reported name and id. -/
def create_label (existing : List Label) (name llv mlv : String)
    (remote_create : CreateCall → Label) : List CreateCall × String :=
  match existing.find? (fun l => pyLower l.name == pyLower name) with
  | some l => ([], "Error: Label '" ++ name ++ "' already exists (ID: " ++ l.id ++ ")")
  | none =>
    let call : CreateCall := ⟨name, llv, mlv⟩
    let result := remote_create call
    ([call], "✓ Label created successfully!\n\n**Name:** " ++ result.name ++ "\n**ID:** " ++ result.id)

/-- The reply-subject derivation of `reply_to_email` (lines 618-620):
prepend `Re: ` unless the subject already starts with `re:` after
lowercasing. -/
def reply_subject (subject : String) : String :=
  if pyStartsWith (pyLower subject) "re:" then subject else "Re: " ++ subject

/-- The body section of one search result in markdown format (line 411):
a fenced block holding `body[:500]` plus an ellipsis marker when the body
is longer than 500 characters. -/
def search_body_section (body : String) : String :=
  "**Body:**\n" ++ "```" ++ "\n" ++ pySlice body 500
    ++ (if body.length > 500 then "..." else "") ++ "\n" ++ "```" ++ "\n\n"

/-- The body section of the `get_email` markdown output (line 490): the
full decoded body, untruncated. -/
def get_email_body_section (body : String) : String :=
  "## Body\n\n" ++ body ++ "\n"

/-- One message block of the `search_emails` markdown output (lines
397-413); decoding the body may raise, so the block is `Except`-valued. -/
def search_message_block (i : Nat) (mid threadId : String) (payload : MsgPayload)
    (labelIds : List String) (snippet : String) (include_body : Bool) :
    Except PyExc String :=
  let headers := payload.headers
  let base :=
    "## " ++ toString i ++ ". Message\n\n"
      ++ "**ID:** `" ++ mid ++ "`\n"
      ++ "**Thread ID:** `" ++ threadId ++ "`\n"
      ++ "**From:** " ++ get_header_value headers "From" ++ "\n"
      ++ "**To:** " ++ get_header_value headers "To" ++ "\n"
      ++ "**Subject:** " ++ get_header_value headers "Subject" ++ "\n"
      ++ "**Date:** " ++ get_header_value headers "Date" ++ "\n"
      ++ "**Labels:** " ++ String.intercalate ", " labelIds ++ "\n\n"
      ++ "**Snippet:** " ++ snippet ++ "\n\n"
  if include_body then
    match decode_message_body payload with
    | .error e => .error e
    | .ok body => .ok (base ++ search_body_section body ++ "---\n\n")
  else .ok (base ++ "---\n\n")

/-- The `get_email` markdown output (lines 456-492): the body is decoded
before rendering, so a decode failure aborts the whole handler. -/
def get_email_markdown (mid threadId : String) (payload : MsgPayload)
    (labelIds : List String) (snippet : String) : Except PyExc String :=
  match decode_message_body payload with
  | .error e => .error e
  | .ok body =>
    let headers := payload.headers
    let cc := get_header_value headers "Cc"
    .ok ("# Email Details\n\n"
      ++ "**ID:** `" ++ mid ++ "`\n"
      ++ "**Thread ID:** `" ++ threadId ++ "`\n"
      ++ "**From:** " ++ get_header_value headers "From" ++ "\n"
      ++ "**To:** " ++ get_header_value headers "To" ++ "\n"
      ++ (if cc = "" then "" else "**CC:** " ++ cc ++ "\n")
      ++ "**Subject:** " ++ get_header_value headers "Subject" ++ "\n"
      ++ "**Date:** " ++ get_header_value headers "Date" ++ "\n"
      ++ "**Labels:** " ++ String.intercalate ", " labelIds ++ "\n\n"
      ++ "**Snippet:** " ++ snippet ++ "\n\n"
      ++ get_email_body_section body)

/-- Lexicographic comparison of char lists by code point, the order Python
string comparison uses. -/
def lexLe : List Char → List Char → Bool
  | [], _ => true
  | _ :: _, [] => false
  | a :: as, b :: bs =>
    if a.toNat < b.toNat then true
    else if a.toNat = b.toNat then lexLe as bs
    else false

/-- Model of Python `<=` on strings. -/
def pyStrLe (a b : String) : Bool := lexLe a.data b.data

/-- The system-label selection of `list_labels` (line 878). -/
def system_labels (labels : List Label) : List Label :=
  labels.filter (fun l => l.type = "system")

/-- The user-label selection of `list_labels` (line 879). -/
def user_labels (labels : List Label) : List Label :=
  labels.filter (fun l => l.type = "user")

/-- Model of Python `sorted(ls, key=lambda x: x['name'])`: a stable merge
sort by display name. -/
def sorted_by_name (ls : List Label) : List Label :=
  ls.mergeSort (fun a b => pyStrLe a.name b.name)

/-- The per-label markdown lines of `list_labels` (lines 884 and 890). -/
def label_lines (ls : List Label) : String :=
  ls.foldl (fun acc l => acc ++ "- **" ++ l.name ++ "** (`" ++ l.id ++ "`)\n") ""

/-- The markdown branch of `list_labels` (lines 874-893): group by type,
sort each group by display name, emit a titled section per non-empty
group. -/
def list_labels_markdown (labels : List Label) : String :=
  "# Gmail Labels\n\n**Total:** " ++ toString labels.length ++ " label(s)\n\n"
    ++ (if system_labels labels = [] then "" else
          "## System Labels\n\n" ++ label_lines (sorted_by_name (system_labels labels)) ++ "\n")
    ++ (if user_labels labels = [] then "" else
          "## User Labels\n\n" ++ label_lines (sorted_by_name (user_labels labels)) ++ "\n")

/-- The JSON branch of `list_labels` (lines 860-872): the total count and a
flat id/name/type record per label, in the order the remote API returned
them. -/
def list_labels_json (labels : List Label) : Nat × List (String × String × String) :=
  (labels.length, labels.map (fun l => (l.id, l.name, l.type)))

/-- The six error classes named by the specification (§4.6). -/
inductive ErrClass where
  | notFound
  | permissionDenied
  | rateLimited
  | invalidRequest
  | credentialMissing
  | unknown
deriving DecidableEq

/-- Follows the spec's words (§4.6): the class each exception belongs to —
`NotFound` for a remote 404, `PermissionDenied` for 403, `RateLimited` for
429, `InvalidRequest` for 400, `CredentialMissing` for a missing-credential
error, and `Unknown` for every other exception. -/
def spec_error_class : PyExc → ErrClass
  | .httpError s _ =>
    if s = 404 then .notFound
    else if s = 403 then .permissionDenied
    else if s = 429 then .rateLimited
    else if s = 400 then .invalidRequest
    else .unknown
  | .fileNotFoundError _ => .credentialMissing
  | _ => .unknown

/-- Follows the spec's words (§4.6): the user-facing message form of each
class — fixed guidance strings for the first three, remote detail for
`InvalidRequest`, the underlying missing-file message verbatim for
`CredentialMissing`, and the failure kind name followed by its message for
`Unknown`. -/
def spec_class_message_form (e : PyExc) (s : String) : Prop :=
  match spec_error_class e with
  | .notFound => s = "Error: Resource not found. Please check the ID is correct."
  | .permissionDenied => s = "Error: Permission denied. Check your Gmail API permissions."
  | .rateLimited => s = "Error: Rate limit exceeded. Please wait before making more requests."
  | .invalidRequest => ∃ d, s = "Error: Invalid request. " ++ d
  | .credentialMissing => s = pyExcMsg e
  | .unknown => ∃ m, s = "Error: " ++ pyTypeName e ++ ": " ++ m

/-- The seven distinguishable result families of `_handle_api_error` as
written: the spec's six classes plus a generic remote-API-error form for
`HttpError` statuses other than 404/403/429/400. -/
inductive CodeClass where
  | notFound
  | permissionDenied
  | rateLimited
  | invalidRequest
  | apiOther
  | credentialMissing
  | unknown
deriving DecidableEq

/-- The branch of `_handle_api_error` an exception reaches. -/
def code_error_class : PyExc → CodeClass
  | .httpError s _ =>
    if s = 404 then .notFound
    else if s = 403 then .permissionDenied
    else if s = 429 then .rateLimited
    else if s = 400 then .invalidRequest
    else .apiOther
  | .fileNotFoundError _ => .credentialMissing
  | _ => .unknown

/-- The message form each `_handle_api_error` branch produces. -/
def code_class_message_form (e : PyExc) (s : String) : Prop :=
  match code_error_class e with
  | .notFound => s = "Error: Resource not found. Please check the ID is correct."
  | .permissionDenied => s = "Error: Permission denied. Check your Gmail API permissions."
  | .rateLimited => s = "Error: Rate limit exceeded. Please wait before making more requests."
  | .invalidRequest => ∃ d, s = "Error: Invalid request. " ++ d
  | .apiOther => ∃ st : Nat, s = "Error: Gmail API error (status " ++ toString st ++ ")"
  | .credentialMissing => s = pyExcMsg e
  | .unknown => ∃ m, s = "Error: " ++ pyTypeName e ++ ": " ++ m

/-! Helper lemmas. -/

/-- A Python `Optional[List[str]]` that is falsy carries no labels. -/
theorem py_list_eq_nil {a : Option (List String)} (h : py_truthy a = false) :
    py_list a = [] := by
  cases a with
  | none => rfl
  | some l => cases l with
    | nil => rfl
    | cons x xs => simp [py_truthy] at h

/-- A Python `Optional[List[str]]` with a member is truthy. -/
theorem py_truthy_of_mem {a : Option (List String)} {l : String} (h : l ∈ py_list a) :
    py_truthy a = true := by
  cases a with
  | none => simp [py_list] at h
  | some ls => cases ls with
    | nil => simp [py_list] at h
    | cons x xs => rfl

/-- An error from the resolution loop names a listed label that is not a
key of the map. -/
theorem resolve_labels_error_spec (m : List (String × String)) :
    ∀ (ls : List String) (lbl : String), resolve_labels m ls = .error lbl →
      lbl ∈ ls ∧ dict_lookup m lbl = none := by
  intro ls
  induction ls with
  | nil => intro lbl h; exact nomatch h
  | cons l rest ih =>
    intro lbl h
    cases hd : dict_lookup m l with
    | some lid =>
      rw [resolve_labels, hd] at h
      cases hres : resolve_labels m rest with
      | ok ids => rw [hres] at h; simp [Except.map] at h
      | error lbl2 =>
        rw [hres] at h
        have heq : lbl2 = lbl := by simpa [Except.map] using h
        subst heq
        obtain ⟨hmem, hnone⟩ := ih lbl2 hres
        exact ⟨List.mem_cons_of_mem _ hmem, hnone⟩
    | none =>
      rw [resolve_labels, hd] at h
      cases h
      exact ⟨List.mem_cons_self _ _, hd⟩

/-- If some listed label is not a key of the map, the resolution loop
returns an error. -/
theorem resolve_labels_error_exists (m : List (String × String)) :
    ∀ ls : List String, (∃ l ∈ ls, dict_lookup m l = none) →
      ∃ lbl, resolve_labels m ls = .error lbl := by
  intro ls
  induction ls with
  | nil => rintro ⟨l, hl, _⟩; simp at hl
  | cons l rest ih =>
    rintro ⟨bad, hbad, hnone⟩
    cases hd : dict_lookup m l with
    | none => exact ⟨l, by rw [resolve_labels, hd]⟩
    | some lid =>
      have hrest : bad ∈ rest := by
        rcases List.mem_cons.mp hbad with h | h
        · subst h; rw [hd] at hnone; exact nomatch hnone
        · exact h
      obtain ⟨lbl, hres⟩ := ih ⟨bad, hrest, hnone⟩
      exact ⟨lbl, by rw [resolve_labels, hd, hres]; rfl⟩

/-- If a string equals `p ++ m` for some `m`, its first `p.data.length`
characters are `p.data`. -/
theorem data_take_of_eq_append {p s : String} (h : ∃ m, s = p ++ m) :
    s.data.take p.data.length = p.data := by
  obtain ⟨m, rfl⟩ := h
  rw [String.data_append, List.take_left]

/-! Claim theorems. -/

/-- Claim C4: `get_header_value` returns the value of the first header in
list order whose name matches the requested name case-insensitively, and
the empty string when no header matches. -/
theorem claim4_get_header_first_match (hs : List Header) (n : String) :
    get_header_value hs n
      = (((hs.find? (fun h => pyLower h.name == pyLower n)).map Header.value).getD "")
    ∧ ((∀ h ∈ hs, pyLower h.name ≠ pyLower n) → get_header_value hs n = "") := by
  have hfind : get_header_value hs n
      = (((hs.find? (fun h => pyLower h.name == pyLower n)).map Header.value).getD "") := by
    induction hs with
    | nil => rfl
    | cons h t ih =>
      by_cases hp : pyLower h.name = pyLower n
      · simp [get_header_value, hp, List.find?_cons]
      · simp only [get_header_value, if_neg hp, List.find?_cons]
        rw [show ((pyLower h.name == pyLower n) : Bool) = false by simp [hp]]
        exact ih
  refine ⟨hfind, fun hnone => ?_⟩
  rw [hfind]
  have : hs.find? (fun h => pyLower h.name == pyLower n) = none := by
    rw [List.find?_eq_none]
    intro x hx
    simpa using hnone x hx
  simp [this]

/-- Claim C4 witness: a concrete absent header yields the empty string. -/
theorem claim4_witness :
    get_header_value [⟨"Subject", "S1"⟩, ⟨"From", "a@x.com"⟩] "X-Foo" = "" :=
  (claim4_get_header_first_match [⟨"Subject", "S1"⟩, ⟨"From", "a@x.com"⟩] "X-Foo").2
    (by decide)

/-- Lowercasing a subject with `Re: ` freshly prepended always starts with
`re:`. -/
theorem startsRe_of_prepend (s : String) :
    pyStartsWith (pyLower ("Re: " ++ s)) "re:" = true := by
  have hlow : pyLower ("Re: " ++ s) = "re: " ++ pyLower s := by
    apply String.ext
    show (("Re: " ++ s).data.map Char.toLower) = ("re: " ++ pyLower s).data
    rw [String.data_append, String.data_append, List.map_append]
    congr 1
  rw [hlow]
  show List.isPrefixOf "re:".data ("re: " ++ pyLower s).data = true
  rw [String.data_append]
  simp [List.isPrefixOf]

/-- Claim C5: the reply-subject derivation leaves subjects already starting
with `re:` (after lowercasing) unchanged, prepends `Re: ` exactly once
otherwise, and is idempotent. -/
theorem claim5_reply_subject_idempotent (s : String) :
    (pyStartsWith (pyLower s) "re:" = true → reply_subject s = s)
    ∧ (pyStartsWith (pyLower s) "re:" = false → reply_subject s = "Re: " ++ s)
    ∧ reply_subject (reply_subject s) = reply_subject s := by
  refine ⟨fun h => by simp [reply_subject, h], fun h => by simp [reply_subject, h], ?_⟩
  by_cases h : pyStartsWith (pyLower s) "re:" = true
  · simp [reply_subject, h]
  · have h' : pyStartsWith (pyLower s) "re:" = false := by
      simpa using h
    simp [reply_subject, h', startsRe_of_prepend s]

/-- Claim C5 witness: concrete subjects exercising both branches. -/
theorem claim5_witness :
    reply_subject "RE: budget" = "RE: budget" ∧ reply_subject "hello" = "Re: " ++ "hello" :=
  ⟨(claim5_reply_subject_idempotent "RE: budget").1 (by decide),
   (claim5_reply_subject_idempotent "hello").2.1 (by decide)⟩

/-- Claim C7: a `create_label` request whose name matches an existing
label's display name ignoring case returns the duplicate-label error naming
that label's id and issues no remote create call. -/
theorem claim7_create_label_duplicate_aborts (existing : List Label)
    (name llv mlv : String) (rc : CreateCall → Label)
    (hdup : ∃ l ∈ existing, pyLower l.name = pyLower name) :
    (create_label existing name llv mlv rc).1 = []
    ∧ ∃ l ∈ existing, pyLower l.name = pyLower name
        ∧ (create_label existing name llv mlv rc).2
            = "Error: Label '" ++ name ++ "' already exists (ID: " ++ l.id ++ ")" := by
  have hsome : (existing.find? (fun l => pyLower l.name == pyLower name)).isSome := by
    rw [List.find?_isSome]
    obtain ⟨l, hl, he⟩ := hdup
    exact ⟨l, hl, by simp [he]⟩
  obtain ⟨l, hfind⟩ := Option.isSome_iff_exists.mp hsome
  have hmem := List.mem_of_find?_eq_some hfind
  have heq : pyLower l.name = pyLower name := by
    have := List.find?_some hfind
    simpa using this
  exact ⟨by simp [create_label, hfind], l, hmem, heq, by simp [create_label, hfind]⟩

/-- Claim C7 witness: creating `INVOICES` when `Invoices` exists fails with
the duplicate error and issues no create call. -/
theorem claim7_witness :
    (create_label [⟨"Label_7", "Invoices", "user"⟩] "INVOICES" "labelShow" "show"
        (fun c => ⟨"Label_new", c.name, "user"⟩)).1 = []
    ∧ ∃ l ∈ [(⟨"Label_7", "Invoices", "user"⟩ : Label)],
        pyLower l.name = pyLower "INVOICES"
        ∧ (create_label [⟨"Label_7", "Invoices", "user"⟩] "INVOICES" "labelShow" "show"
            (fun c => ⟨"Label_new", c.name, "user"⟩)).2
          = "Error: Label '" ++ "INVOICES" ++ "' already exists (ID: " ++ l.id ++ ")" :=
  claim7_create_label_duplicate_aborts [⟨"Label_7", "Invoices", "user"⟩]
    "INVOICES" "labelShow" "show" (fun c => ⟨"Label_new", c.name, "user"⟩)
    ⟨⟨"Label_7", "Invoices", "user"⟩, by decide, by decide⟩

/-- Claim C10: a `modify_labels` request whose add and remove lists are both
absent or empty returns the no-labels error and issues zero remote modify
calls, whatever the message-id list. -/
theorem claim10_no_labels_error (labels : List Label) (mids : List String)
    (adds removes : Option (List String))
    (ha : adds = none ∨ adds = some []) (hr : removes = none ∨ removes = some []) :
    modify_labels labels mids adds removes
      = ([], "Error: No labels to add or remove. Specify at least one label operation.") := by
  have hta : py_truthy adds = false := by rcases ha with h | h <;> subst h <;> rfl
  have htr : py_truthy removes = false := by rcases hr with h | h <;> subst h <;> rfl
  simp [modify_labels, hta, htr]

/-- Claim C10 witness: a concrete request with messages but no labels. -/
theorem claim10_witness :
    modify_labels [] ["m1", "m2"] none none
      = ([], "Error: No labels to add or remove. Specify at least one label operation.") :=
  claim10_no_labels_error [] ["m1", "m2"] none none (Or.inl rfl) (Or.inl rfl)

/-- Claim C1: a `modify_labels` request listing an add or remove label that
is not a key of the label map returns the not-found error naming a failed
label and issues zero remote modify calls — all resolution happens before
the first mutation. -/
theorem claim1_unknown_label_aborts (labels : List Label) (mids : List String)
    (adds removes : Option (List String))
    (hbad : (∃ l ∈ py_list adds, dict_lookup (label_map labels) l = none)
          ∨ (∃ l ∈ py_list removes, dict_lookup (label_map labels) l = none)) :
    (modify_labels labels mids adds removes).1 = []
    ∧ ∃ lbl, (lbl ∈ py_list adds ∨ lbl ∈ py_list removes)
        ∧ dict_lookup (label_map labels) lbl = none
        ∧ (modify_labels labels mids adds removes).2 = label_not_found_error lbl := by
  cases hA : (if py_truthy adds then resolve_labels (label_map labels) (py_list adds)
      else Except.ok []) with
  | error lbl =>
    have htrue : py_truthy adds = true := by
      by_contra hh
      rw [Bool.not_eq_true] at hh
      rw [hh, if_neg (by simp)] at hA
      exact nomatch hA
    rw [htrue, if_pos rfl] at hA
    obtain ⟨hmem, hnone⟩ := resolve_labels_error_spec (label_map labels) (py_list adds) lbl hA
    refine ⟨?_, lbl, Or.inl hmem, hnone, ?_⟩ <;>
      simp [modify_labels, htrue, hA]
  | ok add_ids =>
    have hAok : ∀ l ∈ py_list adds, ¬ dict_lookup (label_map labels) l = none := by
      intro l hl hnone
      have htrue : py_truthy adds = true := py_truthy_of_mem hl
      rw [htrue, if_pos rfl] at hA
      obtain ⟨lbl, herr⟩ := resolve_labels_error_exists (label_map labels) (py_list adds)
        ⟨l, hl, hnone⟩
      rw [herr] at hA
      exact nomatch hA
    rcases hbad with hb | hb
    · exact absurd hb (by push_neg; exact fun l hl => fun h => hAok l hl h)
    · obtain ⟨l0, hl0, hn0⟩ := hb
      have htr : py_truthy removes = true := py_truthy_of_mem hl0
      obtain ⟨lbl, herr⟩ := resolve_labels_error_exists (label_map labels) (py_list removes)
        ⟨l0, hl0, hn0⟩
      obtain ⟨hmem, hnone⟩ := resolve_labels_error_spec (label_map labels) (py_list removes)
        lbl herr
      refine ⟨?_, lbl, Or.inr hmem, hnone, ?_⟩ <;>
        simp [modify_labels, hA, htr, herr]

/-- Claim C1 witness: an add label absent from the account aborts with zero
modify calls. -/
theorem claim1_witness :
    (modify_labels [⟨"Label_1", "Work", "user"⟩] ["m1"] (some ["Personal"]) none).1 = []
    ∧ ∃ lbl, (lbl ∈ py_list (some ["Personal"]) ∨ lbl ∈ py_list none)
        ∧ dict_lookup (label_map [⟨"Label_1", "Work", "user"⟩]) lbl = none
        ∧ (modify_labels [⟨"Label_1", "Work", "user"⟩] ["m1"] (some ["Personal"]) none).2
            = label_not_found_error lbl :=
  claim1_unknown_label_aborts [⟨"Label_1", "Work", "user"⟩] ["m1"] (some ["Personal"]) none
    (Or.inl ⟨"Personal", by decide, by decide⟩)

/-- Claim C2 (amended): every exception reaching a handler boundary is
returned as the classifier's string and never propagates, and the result
falls in one of seven message families: the spec's six classes plus a
generic remote-API-error form carrying the numeric status, used for
`HttpError` statuses other than 404/403/429/400. -/
theorem claim2_classifier_total (e : PyExc) :
    run_handler (.error e) = handle_api_error e
    ∧ code_class_message_form e (handle_api_error e) := by
  refine ⟨rfl, ?_⟩
  cases e with
  | httpError st d =>
    by_cases h404 : st = 404
    · subst h404; simp [code_class_message_form, code_error_class, handle_api_error]
    · by_cases h403 : st = 403
      · subst h403; simp [code_class_message_form, code_error_class, handle_api_error]
      · by_cases h429 : st = 429
        · subst h429; simp [code_class_message_form, code_error_class, handle_api_error]
        · by_cases h400 : st = 400
          · subst h400
            simp only [code_class_message_form, code_error_class, handle_api_error,
              if_neg (by decide : ¬ (400 : Nat) = 404), if_neg (by decide : ¬ (400 : Nat) = 403),
              if_neg (by decide : ¬ (400 : Nat) = 429), if_pos rfl]
            exact ⟨d.getD "Check your parameters.", rfl⟩
          · simp only [code_class_message_form, code_error_class, handle_api_error,
              if_neg h404, if_neg h403, if_neg h429, if_neg h400]
            exact ⟨st, rfl⟩
  | fileNotFoundError m =>
    simp [code_class_message_form, code_error_class, handle_api_error, pyExcMsg]
  | binasciiError m =>
    exact ⟨m, rfl⟩
  | unicodeDecodeError m =>
    exact ⟨m, rfl⟩
  | other n m =>
    exact ⟨m, rfl⟩

/-- Claim C2 counterexample: an `HttpError` with status 500 is returned as
the generic `Gmail API error (status 500)` string, which matches none of
the six spec classes' message forms (in particular not the Unknown form,
which would surface the exception's type name and message). -/
theorem claim2_counterexample :
    handle_api_error (.httpError 500 none) = "Error: Gmail API error (status 500)"
    ∧ ¬ spec_class_message_form (.httpError 500 none)
        (handle_api_error (.httpError 500 none)) := by
  refine ⟨rfl, ?_⟩
  intro hform
  have hform' : ∃ m, "Error: Gmail API error (status 500)" = "Error: HttpError: " ++ m := by
    simpa [spec_class_message_form, spec_error_class, handle_api_error, pyTypeName,
      show (("Error: " ++ "HttpError" : String) ++ ": ") = "Error: HttpError: " from rfl]
      using hform
  have htake := data_take_of_eq_append hform'
  exact absurd htake (by decide)

/-- The payload of Claim C3's counterexample: a single-part payload whose
body data `"QQ"` is base64 with incorrect padding, on which
`base64.urlsafe_b64decode` raises. -/
def c3_bad_payload : MsgPayload := ⟨[], none, some ⟨some "QQ"⟩⟩

/-- Claim C3 counterexample: `decode_message_body` on malformed body data
propagates a decode exception instead of returning the empty string. -/
theorem claim3_counterexample :
    decode_message_body c3_bad_payload = .error (.binasciiError "Incorrect padding")
    ∧ decode_message_body c3_bad_payload ≠ .ok "" :=
  ⟨rfl, fun h =>
    Except.noConfusion
      ((rfl : decode_message_body c3_bad_payload
          = .error (.binasciiError "Incorrect padding")).symm.trans h)⟩

/-- Claim C3 (amended): absent body data decodes to the empty string, but
malformed body data raises out of `decode_message_body` — the exception is
converted to an error string only at the handler boundary — so malformed
data is distinguishable from an absent body. -/
theorem claim3_decode_body_error_behavior :
    (∀ (hs : List Header) (ob : Option MsgBody), (∀ b, ob = some b → b.data = none) →
        decode_message_body ⟨hs, none, ob⟩ = .ok "")
    ∧ decode_message_body c3_bad_payload = .error (.binasciiError "Incorrect padding")
    ∧ run_handler (decode_message_body c3_bad_payload) = "Error: Error: Incorrect padding" := by
  refine ⟨?_, rfl, rfl⟩
  intro hs ob hb
  cases ob with
  | none => rfl
  | some b =>
    have hdata : b.data = none := hb b rfl
    simp [decode_message_body, hdata]

/-- Claim C3 witness: a payload with no parts and no body data decodes to
the empty string. -/
theorem claim3_witness : decode_message_body ⟨[], none, some ⟨none⟩⟩ = .ok "" :=
  claim3_decode_body_error_behavior.1 [] (some ⟨none⟩) (fun b h => by cases h; rfl)

/-- Folding prepend-insertions over a list accumulates the mapped entries in
reverse, in front of the initial dict. -/
theorem foldl_cons_eq (f : Label → String × String) :
    ∀ (ls : List Label) (init : List (String × String)),
      ls.foldl (fun m l => f l :: m) init = (ls.map f).reverse ++ init := by
  intro ls
  induction ls with
  | nil => intro init; rfl
  | cons x xs ih =>
    intro init
    simp only [List.foldl_cons, List.map_cons, List.reverse_cons]
    rw [ih (f x :: init)]
    simp

/-- The label map splits into the identifier entries (overriding) followed
by the display-name entries. -/
theorem label_map_eq (labels : List Label) :
    label_map labels
      = (labels.map (fun l => (l.id, l.id))).reverse
        ++ (labels.map (fun l => (l.name, l.id))).reverse := by
  simp [label_map, foldl_cons_eq]

/-- A found entry among mapped label pairs comes from a label of the list
and its key matches. -/
theorem find?_label_pairs {g h : Label → String} {ls : List Label} {k : String}
    {a : String × String}
    (hf : (ls.map (fun l => (g l, h l))).reverse.find? (fun p => p.1 == k) = some a) :
    a.1 = k ∧ ∃ m ∈ ls, a = (g m, h m) := by
  have hkey : a.1 = k := by
    have := List.find?_some hf
    simpa using this
  have hmem : a ∈ (ls.map (fun l => (g l, h l))).reverse := List.mem_of_find?_eq_some hf
  rw [List.mem_reverse, List.mem_map] at hmem
  obtain ⟨m, hm, hma⟩ := hmem
  exact ⟨hkey, m, hm, hma.symm⟩

/-- A key realised by some label of the list is found among the mapped
pairs. -/
theorem find?_label_pairs_isSome (g h : Label → String) (ls : List Label) (k : String)
    (hex : ∃ m ∈ ls, g m = k) :
    ((ls.map (fun l => (g l, h l))).reverse.find? (fun p => p.1 == k)).isSome := by
  rw [List.find?_isSome]
  obtain ⟨m, hm, hk⟩ := hex
  exact ⟨(g m, h m), by rw [List.mem_reverse, List.mem_map]; exact ⟨m, hm, rfl⟩, by simp [hk]⟩

/-- Looking up any listed label's identifier in the label map yields that
identifier, unconditionally: the `update` pass keys every identifier to
itself. -/
theorem dict_lookup_label_map_id (labels : List Label) (l : Label) (hl : l ∈ labels) :
    dict_lookup (label_map labels) l.id = some l.id := by
  rw [label_map_eq, dict_lookup, List.find?_append]
  have hsome := find?_label_pairs_isSome Label.id Label.id labels l.id ⟨l, hl, rfl⟩
  obtain ⟨a, ha⟩ := Option.isSome_iff_exists.mp hsome
  obtain ⟨hkey, m, _, hma⟩ := find?_label_pairs ha
  rw [ha]
  subst hma
  simpa using hkey

/-- Looking up a listed label's display name yields its identifier,
provided display names are pairwise distinct and no label's identifier
coincides with a different label's display name. -/
theorem dict_lookup_label_map_name (labels : List Label) (l : Label) (hl : l ∈ labels)
    (hnames : ∀ a ∈ labels, ∀ b ∈ labels, a.name = b.name → a = b)
    (hcross : ∀ a ∈ labels, ∀ b ∈ labels, b.id = a.name → a.id = a.name) :
    dict_lookup (label_map labels) l.name = some l.id := by
  by_cases hex : ∃ m ∈ labels, m.id = l.name
  · obtain ⟨m, hm, hmid⟩ := hex
    have hid : l.id = l.name := hcross l hl m hm hmid
    rw [← hid]
    exact dict_lookup_label_map_id labels l hl
  · rw [label_map_eq, dict_lookup, List.find?_append]
    have hnone : ((labels.map (fun x => (x.id, x.id))).reverse.find?
        (fun p => p.1 == l.name)) = none := by
      rw [List.find?_eq_none]
      intro x hx
      rw [List.mem_reverse, List.mem_map] at hx
      obtain ⟨m, hm, hmx⟩ := hx
      subst hmx
      simp only [beq_iff_eq]
      exact fun hmk => hex ⟨m, hm, hmk⟩
    rw [hnone]
    have hsome := find?_label_pairs_isSome Label.name Label.id labels l.name ⟨l, hl, rfl⟩
    obtain ⟨a, ha⟩ := Option.isSome_iff_exists.mp hsome
    obtain ⟨hkey, m, hm, hma⟩ := find?_label_pairs ha
    rw [ha]
    subst hma
    have hmeq : m = l := hnames m hm l hl (by simpa using hkey)
    subst hmeq
    rfl

/-- Claim C6 counterexample: in an account where label `⟨id L2, name L1⟩`
has a display name equal to another label's identifier, resolving that
label's display name yields `L1` — the other label's identifier — while
resolving its identifier yields `L2`, so the two forms are not
interchangeable. -/
def c6_labels : List Label := [⟨"L1", "A", "user"⟩, ⟨"L2", "L1", "user"⟩]

/-- Claim C6 counterexample theorem: the second label of `c6_labels`
resolves differently by name and by identifier. -/
theorem claim6_counterexample :
    (⟨"L2", "L1", "user"⟩ : Label) ∈ c6_labels
    ∧ dict_lookup (label_map c6_labels) "L2" = some "L2"
    ∧ dict_lookup (label_map c6_labels) "L1" = some "L1"
    ∧ dict_lookup (label_map c6_labels) "L1" ≠ some "L2" := by decide

/-- Claim C6 (amended): for every label of the account, resolving its
identifier and resolving its exact display name through the label map yield
the label's own identifier, provided display names are pairwise distinct
and no label's identifier equals a different label's display name. -/
theorem claim6_label_map_resolution (labels : List Label) (l : Label) (hl : l ∈ labels)
    (hnames : ∀ a ∈ labels, ∀ b ∈ labels, a.name = b.name → a = b)
    (hcross : ∀ a ∈ labels, ∀ b ∈ labels, b.id = a.name → a.id = a.name) :
    dict_lookup (label_map labels) l.id = some l.id
    ∧ dict_lookup (label_map labels) l.name = some l.id :=
  ⟨dict_lookup_label_map_id labels l hl,
   dict_lookup_label_map_name labels l hl hnames hcross⟩

/-- Claim C6 witness: a realistic account (a user label and a system label
whose name equals its id) resolves both forms to the identifier. -/
theorem claim6_witness :
    dict_lookup (label_map [⟨"Label_1", "Work", "user"⟩, ⟨"INBOX", "INBOX", "system"⟩])
        (Label.mk "Label_1" "Work" "user").id = some "Label_1"
    ∧ dict_lookup (label_map [⟨"Label_1", "Work", "user"⟩, ⟨"INBOX", "INBOX", "system"⟩])
        (Label.mk "Label_1" "Work" "user").name = some "Label_1" :=
  claim6_label_map_resolution
    [⟨"Label_1", "Work", "user"⟩, ⟨"INBOX", "INBOX", "system"⟩]
    ⟨"Label_1", "Work", "user"⟩ (by decide) (by decide) (by decide)

/-- The long body used by Claim C8's counterexample: 501 copies of `a`. -/
def c8_long_body : String := String.mk (List.replicate 501 'a')

/-- Claim C8 counterexample: `get_email`'s human-readable body section
renders a 501-character body in full with no ellipsis marker, so the
500-unit truncation does not apply uniformly to every operation. -/
theorem claim8_counterexample :
    get_email_body_section c8_long_body = "## Body\n\n" ++ c8_long_body ++ "\n"
    ∧ c8_long_body.length = 501
    ∧ get_email_body_section c8_long_body
        ≠ "## Body\n\n" ++ pySlice c8_long_body 500 ++ "..." ++ "\n" := by
  have hlen : c8_long_body.length = 501 := by
    show (List.replicate 501 'a').length = 501
    rw [List.length_replicate]
  refine ⟨rfl, hlen, ?_⟩
  intro h
  have hslice : (pySlice c8_long_body 500).length = 500 := by
    show (c8_long_body.data.take 500).length = 500
    rw [List.length_take]
    have h501 : c8_long_body.data.length = 501 := hlen
    omega
  have hl := congrArg String.length h
  rw [get_email_body_section] at hl
  simp only [String.length_append, hlen, hslice,
    show ("## Body\n\n" : String).length = 9 from rfl,
    show ("..." : String).length = 3 from rfl,
    show ("\n" : String).length = 1 from rfl] at hl
  omega

/-- Claim C8 (amended): the search operation's human-readable body section
renders bodies of at most 500 characters in full with no marker, truncates
longer bodies to exactly their first 500 characters followed by the
ellipsis marker, while the get operation's human-readable output renders
the body in full, untruncated. -/
theorem claim8_body_truncation (body : String) :
    (body.length ≤ 500 →
      search_body_section body
        = "**Body:**\n" ++ "```" ++ "\n" ++ body ++ "\n" ++ "```" ++ "\n\n")
    ∧ (body.length > 500 →
      search_body_section body
          = "**Body:**\n" ++ "```" ++ "\n" ++ pySlice body 500 ++ "..." ++ "\n" ++ "```" ++ "\n\n"
        ∧ (pySlice body 500).length = 500)
    ∧ get_email_body_section body = "## Body\n\n" ++ body ++ "\n" := by
  refine ⟨?_, ?_, rfl⟩
  · intro h
    have hnot : ¬ body.length > 500 := by omega
    have hslice : pySlice body 500 = body := by
      apply String.ext
      show body.data.take 500 = body.data
      exact List.take_of_length_le h
    simp [search_body_section, hnot, hslice]
  · intro h
    refine ⟨by simp [search_body_section, h], ?_⟩
    show (body.data.take 500).length = 500
    rw [List.length_take]
    have h' : 500 < body.data.length := h
    omega

/-- Claim C8 witness: a short body renders in full and the 501-character
body truncates to its first 500 characters plus the marker. -/
theorem claim8_witness :
    search_body_section "hi" = "**Body:**\n" ++ "```" ++ "\n" ++ "hi" ++ "\n" ++ "```" ++ "\n\n"
    ∧ (search_body_section c8_long_body
        = "**Body:**\n" ++ "```" ++ "\n" ++ pySlice c8_long_body 500 ++ "..." ++ "\n"
            ++ "```" ++ "\n\n"
      ∧ (pySlice c8_long_body 500).length = 500) :=
  ⟨(claim8_body_truncation "hi").1 (by decide),
   (claim8_body_truncation c8_long_body).2.1
     (by show 500 < (List.replicate 501 'a').length; rw [List.length_replicate]; omega)⟩

/-- Totality of the lexicographic comparison. -/
theorem lexLe_total : ∀ a b : List Char, (lexLe a b || lexLe b a) = true := by
  intro a
  induction a with
  | nil => intro b; simp [lexLe]
  | cons x xs ih =>
    intro b
    cases b with
    | nil => simp [lexLe]
    | cons y ys =>
      by_cases h1 : x.toNat < y.toNat
      · simp [lexLe, h1]
      · by_cases h2 : x.toNat = y.toNat
        · have h2' : y.toNat = x.toNat := h2.symm
          have hy : ¬ y.toNat < x.toNat := by omega
          simp only [lexLe, if_neg h1, if_pos h2, if_neg hy, if_pos h2']
          exact ih ys
        · have h3 : y.toNat < x.toNat := by omega
          simp [lexLe, h1, h2, h3]

/-- Transitivity of the lexicographic comparison. -/
theorem lexLe_trans :
    ∀ a b c : List Char, lexLe a b = true → lexLe b c = true → lexLe a c = true := by
  intro a
  induction a with
  | nil => intro b c _ _; simp [lexLe]
  | cons x xs ih =>
    intro b c hab hbc
    cases b with
    | nil => simp [lexLe] at hab
    | cons y ys =>
      cases c with
      | nil => simp [lexLe] at hbc
      | cons z zs =>
        simp only [lexLe] at hab hbc ⊢
        by_cases h1 : x.toNat < y.toNat <;> by_cases h2 : y.toNat < z.toNat
        · simp [if_pos (by omega : x.toNat < z.toNat)]
        · rw [if_neg h2] at hbc
          by_cases h2' : y.toNat = z.toNat
          · simp [if_pos (by omega : x.toNat < z.toNat)]
          · rw [if_neg h2'] at hbc; exact nomatch hbc
        · rw [if_neg h1] at hab
          by_cases h1' : x.toNat = y.toNat
          · simp [if_pos (by omega : x.toNat < z.toNat)]
          · rw [if_neg h1'] at hab; exact nomatch hab
        · rw [if_neg h1] at hab
          rw [if_neg h2] at hbc
          by_cases h1' : x.toNat = y.toNat
          · by_cases h2' : y.toNat = z.toNat
            · rw [if_pos h1'] at hab
              rw [if_pos h2'] at hbc
              rw [if_neg (by omega : ¬ x.toNat < z.toNat), if_pos (by omega : x.toNat = z.toNat)]
              exact ih ys zs hab hbc
            · rw [if_neg h2'] at hbc; exact nomatch hbc
          · rw [if_neg h1'] at hab; exact nomatch hab

/-- Claim C9 counterexample: two user labels returned by the remote API in
the order `B`, `A` appear in the structured (JSON) output in that same
order — neither partitioned nor sorted by display name. -/
def c9_labels : List Label := [⟨"L2", "B", "user"⟩, ⟨"L1", "A", "user"⟩]

/-- Claim C9 counterexample theorem: the JSON output of `list_labels` keeps
the remote order, so the user-label names are not sorted there. -/
theorem claim9_counterexample :
    (list_labels_json c9_labels).2 = [("L2", "B", "user"), ("L1", "A", "user")]
    ∧ ¬ List.Pairwise (fun a b : String => pyStrLe a b = true)
        ((list_labels_json c9_labels).2.map (fun t => t.2.1)) := by decide

/-- Claim C9 (amended): the markdown output of `list_labels` partitions
labels into the system and user groups and lists each group sorted by
display name (a permutation of the group containing exactly the labels of
that type), while the JSON output is the flat id/name/type list in the
order the remote API returned. -/
theorem claim9_list_labels_grouping (labels : List Label) :
    List.Pairwise (fun a b : Label => pyStrLe a.name b.name = true)
        (sorted_by_name (system_labels labels))
    ∧ (sorted_by_name (system_labels labels)).Perm (system_labels labels)
    ∧ (∀ l, l ∈ sorted_by_name (system_labels labels) ↔ l ∈ labels ∧ l.type = "system")
    ∧ List.Pairwise (fun a b : Label => pyStrLe a.name b.name = true)
        (sorted_by_name (user_labels labels))
    ∧ (sorted_by_name (user_labels labels)).Perm (user_labels labels)
    ∧ (∀ l, l ∈ sorted_by_name (user_labels labels) ↔ l ∈ labels ∧ l.type = "user")
    ∧ (list_labels_json labels).2 = labels.map (fun l => (l.id, l.name, l.type)) := by
  have htrans : ∀ a b c : Label, pyStrLe a.name b.name = true →
      pyStrLe b.name c.name = true → pyStrLe a.name c.name = true :=
    fun a b c hab hbc => lexLe_trans a.name.data b.name.data c.name.data hab hbc
  have htotal : ∀ a b : Label, (pyStrLe a.name b.name || pyStrLe b.name a.name) = true :=
    fun a b => lexLe_total a.name.data b.name.data
  refine ⟨List.sorted_mergeSort htrans htotal _,
    List.mergeSort_perm _ _, fun l => ?_,
    List.sorted_mergeSort htrans htotal _,
    List.mergeSort_perm _ _, fun l => ?_, rfl⟩
  · rw [sorted_by_name, (List.mergeSort_perm _ _).mem_iff]
    simp [system_labels, List.mem_filter]
  · rw [sorted_by_name, (List.mergeSort_perm _ _).mem_iff]
    simp [user_labels, List.mem_filter]

end GmailMcp
